import Mathlib

/-!
Shallow embedding of the raffle application's core state machine
(`src/raffle_multi.py`): campaign / entry data model, unique-number
allocation (`available_numbers`, `assign_number`, the `hold_success`
retry loop with the `(charity_id, number)` unique constraint), hold
amount computation (`start_hold`, `compute_hold_amount_pence`),
settlement (`confirm_payment`), the payment-succeeded webhook branch,
ticket reveal (`api_reveal_number`), automatic sold-out derivation
(`refresh_campaign_status`) and the partner entry edit handler.
-/

namespace Raffle

/-- Module-level default hold amount in pence (`HOLD_AMOUNT_PENCE = 20000`). -/
def HOLD_AMOUNT_PENCE : Nat := 20000

/-- The `Charity` model fields relevant to the core flow. -/
structure Charity where
  id : Nat
  slug : String
  max_number : Nat
  campaign_status : String
  hold_amount_pence : Nat
  optional_donation_enabled : Bool
  stripe_account_id : String
  deriving Repr, DecidableEq

/-- The `Entry` model: one row of the entry table.  `hold_amount_pence` and
`payment_intent_id` are nullable columns, modelled with `Option`. -/
structure Entry where
  id : Nat
  charity_id : Nat
  name : String
  email : String
  phone : String
  number : Nat
  paid : Bool
  paid_at : Option Nat
  payment_intent_id : Option String
  stripe_account_id : String
  hold_amount_pence : Option Nat
  deriving Repr, DecidableEq

/-- `available_numbers(c)`: the integers in `[1, max_number]` not taken by an
entry of this charity. -/
def available_numbers (c : Charity) (entries : List Entry) : List Nat :=
  (List.range' 1 c.max_number).filter
    (fun i => ! entries.any (fun e => e.charity_id == c.id && e.number == i))

/-- `assign_number(c)`: `random.choice(avail) if avail else None`.  The random
choice is abstracted by a `choose` function supplied by the caller. -/
def assign_number (choose : List Nat → Nat) (c : Charity) (entries : List Entry) :
    Option Nat :=
  let avail := available_numbers c entries
  if avail.isEmpty then none else some (choose avail)

/-- The database unique constraint `uq_charity_number` on
`(charity_id, number)`: does inserting `e` collide with an existing row? -/
def conflicts (entries : List Entry) (e : Entry) : Bool :=
  entries.any (fun x => x.charity_id == e.charity_id && x.number == e.number)

/-- An atomic `db.session.commit()` of a freshly added entry: succeeds (the row
is inserted) unless the unique constraint is violated, in which case the
transaction raises `IntegrityError` and is rolled back (`none`). -/
def commitEntry (entries : List Entry) (e : Entry) : Option (List Entry) :=
  if conflicts entries e then none else some (e :: entries)

/-- Per-campaign ticket-number uniqueness: any two distinct rows of the table
that belong to the same charity carry different numbers. -/
def UniquePerCampaign (entries : List Entry) : Prop :=
  entries.Pairwise (fun a b => a.charity_id = b.charity_id → a.number ≠ b.number)

instance (entries : List Entry) : Decidable (UniquePerCampaign entries) :=
  List.instDecidablePairwise entries

/-- The `pending_entry` session payload stored by `charity_page` before the
redirect to the gateway. -/
structure Pending where
  slug : String
  name : String
  email : String
  phone : String
  hold_amount_pence : Nat
  deriving Repr, DecidableEq

/-- The fields of a retrieved Stripe PaymentIntent used by the flow. -/
structure PaymentIntent where
  id : String
  status : String
  amount : Nat
  deriving Repr, DecidableEq

/-- The entry row built inside the `hold_success` retry loop. -/
def mkEntry (nextId : Nat) (c : Charity) (p : Pending) (intent : PaymentIntent)
    (n : Nat) : Entry :=
  { id := nextId
    charity_id := c.id
    name := p.name
    email := p.email
    phone := p.phone
    number := n
    paid := false
    paid_at := none
    payment_intent_id := some intent.id
    stripe_account_id := c.stripe_account_id
    hold_amount_pence := some intent.amount }

/-- The `for _ in range(max_retries)` allocation loop of `hold_success`.
Each iteration recomputes the complement from the current table, picks a
number, and attempts the constrained insert; `env` injects the writes other
concurrent requests may commit between the read and this request's commit, and
on `IntegrityError` the transaction is rolled back and the loop retries
against the fresh state. -/
def allocLoop (choose : List Nat → Nat) (env : Nat → List Entry → List Entry)
    (c : Charity) (mk : Nat → Entry) :
    Nat → List Entry → Option Entry × List Entry
  | 0, entries => (none, entries)
  | Nat.succ fuel, entries =>
    match assign_number choose c entries with
    | none => (none, entries)
    | some n =>
      let entries₁ := env fuel entries
      match commitEntry entries₁ (mk n) with
      | some committed => (some (mk n), committed)
      | none => allocLoop choose env c mk fuel entries₁

/-- `refresh_campaign_status`: auto-set `sold_out` once no ticket remains;
never auto-change any other status. -/
def refresh_campaign_status (c : Charity) (entries : List Entry) : Charity :=
  if (available_numbers c entries).length ≤ 0 ∧ c.campaign_status ≠ "sold_out" then
    { c with campaign_status := "sold_out" }
  else c

/-- A campaign together with its entry table. -/
structure CampaignState where
  charity : Charity
  entries : List Entry
  deriving Repr, DecidableEq

/-- Apply `refresh_campaign_status` to the state's charity. -/
def refreshState (st : CampaignState) : CampaignState :=
  { st with charity := refresh_campaign_status st.charity st.entries }

/-- Outcome of the `hold_success` callback handler. -/
inductive HoldResult where
  | missingSession
  | badStatus
  | missingPending
  | soldOutEarly
  | allocFailed
  | created (e : Entry)
  deriving Repr, DecidableEq

/-- The `hold_success` route: verify the PaymentIntent status, look up the
pending session details, then allocate a number and create the entry via the
retry loop (12 attempts).  The status refresh runs only on the failed-loop
path. -/
def hold_success (choose : List Nat → Nat) (env : Nat → List Entry → List Entry)
    (session_id : Option String) (pi : Option PaymentIntent)
    (pending : Option Pending) (nextId : Nat) (st : CampaignState) :
    HoldResult × CampaignState :=
  match session_id with
  | none => (HoldResult.missingSession, st)
  | some _ =>
    match pi with
    | none => (HoldResult.badStatus, st)
    | some intent =>
      if intent.status = "requires_capture" ∨ intent.status = "succeeded" then
        match pending with
        | none => (HoldResult.missingPending, st)
        | some p =>
          if p.slug = st.charity.slug then
            match assign_number choose st.charity st.entries with
            | none => (HoldResult.soldOutEarly, st)
            | some _ =>
              match allocLoop choose env st.charity
                  (mkEntry nextId st.charity p intent) 12 st.entries with
              | (some e, committed) =>
                (HoldResult.created e, { st with entries := committed })
              | (none, committed) =>
                (HoldResult.allocFailed, refreshState { st with entries := committed })
          else (HoldResult.missingPending, st)
      else (HoldResult.badStatus, st)

/-- The hold amount actually authorised by `start_hold`: the pending amount,
raised to the minimum hold `max_number * 100` when below it. -/
def start_hold_amount (c : Charity) (pending_hold : Nat) : Nat :=
  let min_hold := c.max_number * 100
  if pending_hold < min_hold then min_hold else pending_hold

/-- `compute_hold_amount_pence`: the intended hold amount stashed in the
pending session by `charity_page`. -/
def compute_hold_amount_pence (c : Charity) : Nat :=
  let min_hold := c.max_number * 100
  let configured := c.hold_amount_pence
  max min_hold (if 0 < configured then configured else 0)

/-- Calls issued to the Stripe gateway by the settlement handler. -/
inductive GatewayCall where
  | capture (intentId : String) (amount_pence : Nat)
  | cancel (intentId : String)
  | listCharges (intentId : String)
  deriving Repr, DecidableEq

/-- Whether the gateway accepts the capture / cancel calls (the `try` blocks
around `stripe.PaymentIntent.capture` and `stripe.PaymentIntent.cancel`). -/
structure Gateway where
  captureOk : Bool
  cancelOk : Bool
  deriving Repr, DecidableEq

/-- The distinct exits of `confirm_payment`, in source order. -/
inductive ConfirmResult where
  | missingAccount
  | alreadyPaid
  | missingIntent
  | belowMinimum
  | exceedsHold
  | invalidAmount
  | canceledOk
  | cancelFailed
  | captureFailed
  | confirmed (paid_gbp held_gbp released_gbp : Int)
  deriving Repr, DecidableEq

/-- Result, final entry row, and the gateway calls made, in order. -/
structure ConfirmOutcome where
  result : ConfirmResult
  entry : Entry
  calls : List GatewayCall
  deriving Repr, DecidableEq

/-- Python's `s.startswith(pre)`, as a character-list prefix test. -/
def pyStartsWith (pre s : String) : Bool :=
  List.isPrefixOf pre.toList s.toList

/-- The Python truthiness chain `entry.hold_amount_pence or HOLD_AMOUNT_PENCE
or 0`: a missing or zero hold falls back to the module default. -/
def heldOrDefault (h : Option Nat) : Nat :=
  match h with
  | none => HOLD_AMOUNT_PENCE
  | some 0 => HOLD_AMOUNT_PENCE
  | some v => v

/-- The donor-supplied `amount_gbp` form field after `int(raw)` parsing:
an absent or unparseable value becomes `-1`. -/
def form_amount_gbp (raw : Option Int) : Int :=
  match raw with
  | some v => v
  | none => -1

/-- Total amount captured by a list of gateway calls. -/
def capturedTotal (calls : List GatewayCall) : Nat :=
  (calls.map (fun call =>
    match call with
    | GatewayCall.capture _ a => a
    | _ => 0)).sum

/-- The `confirm_payment` route: guard chain, donor-amount handling, the
zero-amount cancel path, and the capture path, faithful to source order
(lines 3281-3398). -/
def confirm_payment (g : Gateway) (c : Charity) (e : Entry)
    (form_amount : Option Int) (now : Nat) : ConfirmOutcome :=
  let acct := if e.stripe_account_id ≠ "" then e.stripe_account_id
              else c.stripe_account_id
  if ¬ pyStartsWith "acct_" acct then ⟨ConfirmResult.missingAccount, e, []⟩
  else if e.paid then ⟨ConfirmResult.alreadyPaid, e, []⟩
  else
    match e.payment_intent_id with
    | none => ⟨ConfirmResult.missingIntent, e, []⟩
    | some piid =>
      let optional_ok := c.optional_donation_enabled
      let amount_gbp : Int :=
        if ¬ optional_ok then (e.number : Int)
        else form_amount_gbp form_amount
      let amount_pence : Int := amount_gbp * 100
      if ¬ optional_ok ∧ amount_gbp < 1 then ⟨ConfirmResult.belowMinimum, e, []⟩
      else
        let paid_gbp : Int := Int.fdiv amount_pence 100
        let held_pence : Nat := heldOrDefault e.hold_amount_pence
        let held_gbp : Int := ((held_pence / 100 : Nat) : Int)
        let released_gbp : Int := max 0 (held_gbp - paid_gbp)
        let max_gbp : Int := (((e.hold_amount_pence.getD 0) / 100 : Nat) : Int)
        if max_gbp < amount_gbp then ⟨ConfirmResult.exceedsHold, e, []⟩
        else
          let held : Nat :=
            if e.hold_amount_pence.getD 0 ≤ 0 then HOLD_AMOUNT_PENCE
            else e.hold_amount_pence.getD 0
          if amount_pence < 0 ∨ (held : Int) < amount_pence then
            ⟨ConfirmResult.invalidAmount, e, []⟩
          else if optional_ok ∧ amount_pence = 0 then
            if g.cancelOk then
              ⟨ConfirmResult.canceledOk,
               { e with paid := true, paid_at := some now },
               [GatewayCall.cancel piid]⟩
            else ⟨ConfirmResult.cancelFailed, e, [GatewayCall.cancel piid]⟩
          else
            if g.captureOk then
              ⟨ConfirmResult.confirmed paid_gbp held_gbp released_gbp,
               { e with paid := true, paid_at := some now },
               [GatewayCall.capture piid amount_pence.toNat,
                GatewayCall.listCharges piid]⟩
            else
              ⟨ConfirmResult.captureFailed, e,
               [GatewayCall.capture piid amount_pence.toNat]⟩

/-- The `payment_intent.succeeded` branch of `stripe_webhook`: finalise the
entry named in the metadata only when it exists and is not already paid. -/
def stripe_webhook_succeeded (entries : List Entry) (meta_entry_id : Option Nat)
    (now : Nat) : List Entry :=
  match meta_entry_id with
  | none => entries
  | some eid =>
    entries.map (fun e =>
      if e.id = eid ∧ e.paid = false then { e with paid := true, paid_at := some now }
      else e)

/-- The donor-session keys used by the reveal flow (`reveal_entry_id` is set
by `hold_success` when the entry is created; `revealed_entry_id` by the first
successful reveal). -/
structure DonorSession where
  reveal_entry_id : Option Nat
  revealed_entry_id : Option Nat
  deriving Repr, DecidableEq

/-- Responses of `api_reveal_number`. -/
inductive RevealResult where
  | notAuthorised
  | alreadyRevealed
  | notFound
  | ok (ticket_number ticket_value hold_amount : Nat)
  deriving Repr, DecidableEq

/-- Primary-key lookup `Entry.query.get(entry_id)`. -/
def findEntry (entries : List Entry) (entry_id : Nat) : Option Entry :=
  entries.find? (fun e => e.id == entry_id)

/-- The `api_reveal_number` route: session-scoped, one-shot disclosure of the
ticket number. -/
def api_reveal_number (sess : DonorSession) (entries : List Entry)
    (entry_id : Nat) : RevealResult × DonorSession :=
  if sess.reveal_entry_id ≠ some entry_id then (RevealResult.notAuthorised, sess)
  else if sess.revealed_entry_id = some entry_id then
    (RevealResult.alreadyRevealed, sess)
  else
    match findEntry entries entry_id with
    | none => (RevealResult.notFound, sess)
    | some e =>
      (RevealResult.ok e.number e.number (heldOrDefault e.hold_amount_pence / 100),
       { sess with revealed_entry_id := some entry_id })

/-- The `number` form field of the partner edit form: empty, unparseable, or
an integer. -/
inductive NumberField where
  | empty
  | invalid
  | val (v : Int)
  deriving Repr, DecidableEq

/-- Committing an ORM update: the row with the edited entry's id is replaced. -/
def replaceById (entries : List Entry) (e₁ : Entry) : List Entry :=
  entries.map (fun x => if x.id = e₁.id then e₁ else x)

/-- Unique-constraint check for an UPDATE: another row of the same charity
already carries the new number. -/
def updateConflicts (entries : List Entry) (e₁ : Entry) : Bool :=
  entries.any (fun x =>
    x.id != e₁.id && x.charity_id == e₁.charity_id && x.number == e₁.number)

/-- The POST branch of `partner_edit_entry`: update contact fields, optionally
change the number (validated against `[1, max_number]`), and commit under the
unique constraint; any validation message suppresses the commit. -/
def partner_edit_entry (c : Charity) (entries : List Entry) (entry_id : Nat)
    (nm em ph : String) (number_raw : NumberField) :
    List Entry × Option String :=
  match findEntry entries entry_id with
  | none => (entries, some "not found")
  | some e =>
    if e.charity_id ≠ c.id then (entries, some "forbidden")
    else
      let e₀ := { e with name := nm, email := em, phone := ph }
      let step : Entry × Option String :=
        match number_raw with
        | NumberField.empty => (e₀, none)
        | NumberField.invalid => (e₀, some "Number must be an integer.")
        | NumberField.val v =>
          if v < 1 ∨ (c.max_number : Int) < v then
            (e₀, some "Number out of range.")
          else ({ e₀ with number := v.toNat }, none)
      match step with
      | (_, some m) => (entries, some m)
      | (e₁, none) =>
        if updateConflicts entries e₁ then
          (entries, some "That number is already taken.")
        else (replaceById entries e₁, none)

end Raffle

namespace Raffle

/-- Deterministic stand-in for `random.choice` used in concrete runs. -/
def chooseHead (l : List Nat) : Nat := l.headD 0

/-- Trivial environment: no concurrent writers. -/
def envId (_ : Nat) (s : List Entry) : List Entry := s

/-- Concrete two-ticket live campaign used in concrete runs. -/
def cT : Charity :=
  { id := 1, slug := "ch", max_number := 2, campaign_status := "live",
    hold_amount_pence := 20000, optional_donation_enabled := false,
    stripe_account_id := "acct_1" }

/-- Concrete pending session details matching `cT`. -/
def pT : Pending :=
  { slug := "ch", name := "a", email := "e", phone := "p",
    hold_amount_pence := 250 }

/-- Concrete authorised PaymentIntent (status `requires_capture`). -/
def piT : PaymentIntent :=
  { id := "pi_1", status := "requires_capture", amount := 250 }

/-- Concrete one-ticket live campaign (for exhaustion runs). -/
def cOne : Charity :=
  { id := 2, slug := "one", max_number := 1, campaign_status := "live",
    hold_amount_pence := 20000, optional_donation_enabled := false,
    stripe_account_id := "acct_2" }

/-- Pending session details matching `cOne`. -/
def pOne : Pending :=
  { slug := "one", name := "b", email := "f", phone := "q",
    hold_amount_pence := 100 }

/-- An authorised PaymentIntent for `cOne`. -/
def piOne : PaymentIntent :=
  { id := "pi_2", status := "requires_capture", amount := 100 }

/-- An entry of `cT` with number 42 and a £50 hold, as in the spec's
settlement scenarios. -/
def e42 : Entry :=
  { id := 9, charity_id := 1, name := "a", email := "e", phone := "p",
    number := 42, paid := false, paid_at := none,
    payment_intent_id := some "pi_9", stripe_account_id := "acct_1",
    hold_amount_pence := some 5000 }

/-- The campaign `cT` with optional (partial) donations enabled. -/
def cTopt : Charity :=
  { cT with optional_donation_enabled := true }

theorem conflicts_eq_false_iff (entries : List Entry) (e : Entry) :
    conflicts entries e = false ↔
      ∀ x ∈ entries, ¬ (x.charity_id = e.charity_id ∧ x.number = e.number) := by
  simp [conflicts, List.any_eq_true, not_or]

theorem commitEntry_unique {entries es : List Entry} {e : Entry}
    (h : UniquePerCampaign entries) (hc : commitEntry entries e = some es) :
    UniquePerCampaign es := by
  unfold commitEntry at hc
  split at hc
  · exact absurd hc (by simp)
  · next hconf =>
    rw [Bool.not_eq_true] at hconf
    cases hc
    refine List.Pairwise.cons ?_ h
    intro x hx hcid hnum
    exact (conflicts_eq_false_iff entries e).1 hconf x hx ⟨hcid.symm, hnum.symm⟩

theorem allocLoop_unique (choose : List Nat → Nat)
    (env : Nat → List Entry → List Entry) (c : Charity) (mk : Nat → Entry)
    (henv : ∀ i s, UniquePerCampaign s → UniquePerCampaign (env i s)) :
    ∀ fuel entries, UniquePerCampaign entries →
      UniquePerCampaign (allocLoop choose env c mk fuel entries).2 := by
  intro fuel
  induction fuel with
  | zero => intro entries h; exact h
  | succ fuel ih =>
    intro entries h
    unfold allocLoop
    cases hassign : assign_number choose c entries with
    | none => exact h
    | some n =>
      dsimp only
      have h₁ := henv fuel entries h
      cases hcommit : commitEntry (env fuel entries) (mk n) with
      | some committed =>
        dsimp only
        exact commitEntry_unique h₁ hcommit
      | none =>
        dsimp only
        exact ih (env fuel entries) h₁

/-- C1: every pair of distinct entries of the same campaign carries different
ticket numbers, and the `hold_success` allocation preserves this even when
arbitrary concurrent allocators (the environment `env`, itself respecting the
unique constraint) commit between this request's complement read and its
insert: a colliding insert is rolled back by the constraint and retried with a
fresh number, so no duplicate is ever committed. -/
theorem hold_success_unique_per_campaign
    (choose : List Nat → Nat) (env : Nat → List Entry → List Entry)
    (sid : Option String) (pi : Option PaymentIntent) (pending : Option Pending)
    (nextId : Nat) (st : CampaignState)
    (henv : ∀ i s, UniquePerCampaign s → UniquePerCampaign (env i s))
    (h : UniquePerCampaign st.entries) :
    UniquePerCampaign (hold_success choose env sid pi pending nextId st).2.entries := by
  unfold hold_success
  cases sid with
  | none => exact h
  | some s =>
    cases pi with
    | none => exact h
    | some intent =>
      dsimp only
      split
      · cases pending with
        | none => exact h
        | some p =>
          dsimp only
          split
          · cases hassign : assign_number choose st.charity st.entries with
            | none => simp only [hassign]; exact h
            | some n =>
              simp only [hassign]
              cases hloop : allocLoop choose env st.charity
                  (mkEntry nextId st.charity p intent) 12 st.entries with
              | mk eOpt committed =>
                have hmain := allocLoop_unique choose env st.charity
                  (mkEntry nextId st.charity p intent) henv 12 st.entries h
                rw [hloop] at hmain
                cases eOpt with
                | none => simpa [refreshState] using hmain
                | some e => simpa using hmain
          · exact h
      · exact h

/-- Witness for C1: the uniqueness invariant holds after a concrete
`hold_success` run on a table that already has one entry. -/
theorem hold_success_unique_per_campaign_witness :
    UniquePerCampaign (hold_success chooseHead envId (some "cs") (some piT)
        (some pT) 7 ⟨cT, [e42]⟩).2.entries :=
  hold_success_unique_per_campaign chooseHead envId (some "cs") (some piT)
    (some pT) 7 ⟨cT, [e42]⟩ (fun _ _ hu => hu) (by decide)

theorem allocLoop_created_shape (choose : List Nat → Nat)
    (env : Nat → List Entry → List Entry) (c : Charity) (mk : Nat → Entry) :
    ∀ fuel entries e es, allocLoop choose env c mk fuel entries = (some e, es) →
      ∃ n, e = mk n := by
  intro fuel
  induction fuel with
  | zero => intro entries e es h; exact absurd h (by simp [allocLoop])
  | succ fuel ih =>
    intro entries e es h
    unfold allocLoop at h
    cases hassign : assign_number choose c entries with
    | none => rw [hassign] at h; exact absurd h (by simp)
    | some n =>
      rw [hassign] at h
      dsimp only at h
      cases hcommit : commitEntry (env fuel entries) (mk n) with
      | some committed =>
        rw [hcommit] at h
        dsimp only at h
        refine ⟨n, ?_⟩
        have hfst := congrArg Prod.fst h
        simp only [Prod.fst] at hfst
        exact (Option.some.injEq _ _ ▸ hfst).symm
      | none =>
        rw [hcommit] at h
        exact ih (env fuel entries) e es h

theorem hold_success_created_shape
    (choose : List Nat → Nat) (env : Nat → List Entry → List Entry)
    (sid : Option String) (intent : PaymentIntent) (p : Pending)
    (nextId : Nat) (st : CampaignState) (e : Entry) (st' : CampaignState)
    (h : hold_success choose env sid (some intent) (some p) nextId st
          = (HoldResult.created e, st')) :
    ∃ n, e = mkEntry nextId st.charity p intent n := by
  unfold hold_success at h
  cases sid with
  | none => exact absurd h (by simp)
  | some s =>
    dsimp only at h
    split at h
    · split at h
      · cases hassign : assign_number choose st.charity st.entries with
        | none => rw [hassign] at h; exact absurd h (by simp)
        | some n =>
          rw [hassign] at h
          dsimp only at h
          cases hloop : allocLoop choose env st.charity
              (mkEntry nextId st.charity p intent) 12 st.entries with
          | mk eOpt committed =>
            rw [hloop] at h
            cases eOpt with
            | none => exact absurd h (by simp)
            | some e₁ =>
              dsimp only at h
              have he : e₁ = e := by
                have := congrArg Prod.fst h
                simpa using this
              subst he
              exact allocLoop_created_shape choose env st.charity _ 12
                st.entries e₁ committed hloop
      · exact absurd h (by simp)
    · exact absurd h (by simp)

/-- C2: the effective hold authorised by `start_hold` is
`max(requestedAmount, max_number * 100)` (capacity in minor units), and any
entry created by `hold_success` from a PaymentIntent carrying that amount
records a hold amount at least the campaign capacity in minor units. -/
theorem hold_covers_capacity
    (choose : List Nat → Nat) (env : Nat → List Entry → List Entry)
    (sid : Option String) (intent : PaymentIntent) (p : Pending)
    (nextId : Nat) (st : CampaignState) (st' : CampaignState) (e : Entry)
    (r : Nat)
    (hamt : intent.amount = start_hold_amount st.charity r)
    (hrun : hold_success choose env sid (some intent) (some p) nextId st
              = (HoldResult.created e, st')) :
    start_hold_amount st.charity r = max r (st.charity.max_number * 100) ∧
    e.hold_amount_pence = some (start_hold_amount st.charity r) ∧
    st.charity.max_number * 100 ≤ e.hold_amount_pence.getD 0 := by
  have hmax : start_hold_amount st.charity r = max r (st.charity.max_number * 100) := by
    unfold start_hold_amount
    dsimp only
    split <;> omega
  obtain ⟨n, hn⟩ := hold_success_created_shape choose env sid intent p nextId
    st e st' hrun
  refine ⟨hmax, ?_, ?_⟩
  · rw [hn]
    simp [mkEntry, hamt]
  · rw [hn]
    simp only [mkEntry, Option.getD_some, hamt, hmax]
    omega

/-- Witness for C2: a concrete created entry records the raised hold amount
`max 250 200 = 250` for a capacity-2 campaign. -/
theorem hold_covers_capacity_witness :
    start_hold_amount cT 250 = max 250 (cT.max_number * 100) ∧
    (mkEntry 7 cT pT piT 1).hold_amount_pence = some (start_hold_amount cT 250) ∧
    cT.max_number * 100 ≤ (mkEntry 7 cT pT piT 1).hold_amount_pence.getD 0 :=
  hold_covers_capacity chooseHead envId (some "cs") piT pT 7 ⟨cT, []⟩
    ⟨cT, [mkEntry 7 cT pT piT 1]⟩ (mkEntry 7 cT pT piT 1) 250
    (by decide) (by decide)

theorem heldOrDefault_pos {H : Nat} (h : 0 < H) : heldOrDefault (some H) = H := by
  cases H with
  | zero => omega
  | succ k => rfl

theorem confirm_payment_forced_eval
    (g : Gateway) (c : Charity) (e : Entry) (now : Nat)
    (piid : String) (H : Nat)
    (hopt : c.optional_donation_enabled = false)
    (hacct : pyStartsWith "acct_"
      (if e.stripe_account_id ≠ "" then e.stripe_account_id
       else c.stripe_account_id) = true)
    (hpaid : e.paid = false)
    (hpi : e.payment_intent_id = some piid)
    (hH : e.hold_amount_pence = some H)
    (hn1 : 1 ≤ e.number)
    (hnH : e.number * 100 ≤ H) :
    ∀ r : Option Int, confirm_payment g c e r now =
      if g.captureOk then
        ⟨ConfirmResult.confirmed (e.number : Int) ((H / 100 : Nat) : Int)
            (max 0 (((H / 100 : Nat) : Int) - (e.number : Int))),
         { e with paid := true, paid_at := some now },
         [GatewayCall.capture piid (e.number * 100),
          GatewayCall.listCharges piid]⟩
      else
        ⟨ConfirmResult.captureFailed, e,
         [GatewayCall.capture piid (e.number * 100)]⟩ := by
  intro r
  have h100 : ((e.number : Int) * 100).toNat = e.number * 100 := by omega
  have hfdiv : Int.fdiv ((e.number : Int) * 100) 100 = (e.number : Int) :=
    Int.mul_fdiv_cancel _ (by norm_num)
  unfold confirm_payment
  simp only [hacct, hpaid, hpi, hopt, hH, Option.getD_some,
    heldOrDefault_pos (show 0 < H by omega), Bool.false_eq_true, not_false_eq_true,
    if_true, if_false, ite_true, ite_false, not_true_eq_false, false_and,
    Bool.not_eq_true, h100, hfdiv]
  rw [if_neg (by omega), if_neg (by omega), if_neg (show ¬ (H ≤ 0) by omega)]
  rw [if_neg (by omega)]

/-- C3: when the campaign does not allow partial donation, the donor-supplied
requested amount is ignored (any two requests settle identically) and the
amount captured from the hold is the ticket number in pence
(`entry.number * 100`), the confirmed amount being `entry.number` pounds. -/
theorem settle_forces_ticket_number
    (g : Gateway) (c : Charity) (e : Entry) (r r' : Option Int) (now : Nat)
    (piid : String) (H : Nat)
    (hopt : c.optional_donation_enabled = false)
    (hacct : pyStartsWith "acct_"
      (if e.stripe_account_id ≠ "" then e.stripe_account_id
       else c.stripe_account_id) = true)
    (hpaid : e.paid = false)
    (hpi : e.payment_intent_id = some piid)
    (hH : e.hold_amount_pence = some H)
    (hn1 : 1 ≤ e.number)
    (hnH : e.number * 100 ≤ H) :
    confirm_payment g c e r now = confirm_payment g c e r' now ∧
    (confirm_payment g c e r now).calls.head? =
      some (GatewayCall.capture piid (e.number * 100)) ∧
    (g.captureOk = true →
      (confirm_payment g c e r now).result =
        ConfirmResult.confirmed (e.number : Int) ((H / 100 : Nat) : Int)
          (max 0 (((H / 100 : Nat) : Int) - (e.number : Int)))) := by
  have heval := confirm_payment_forced_eval g c e now piid H hopt hacct hpaid
    hpi hH hn1 hnH
  refine ⟨by rw [heval r, heval r'], ?_, ?_⟩
  · rw [heval r]
    cases hcap : g.captureOk <;> simp
  · intro hcap
    rw [heval r, if_pos hcap]

/-- Witness for C3, the spec's Scenario B: partial donation disabled,
`entry.number = 42`, hold £50; a settle request of £10 still captures £42
(4200 pence), exactly as a request of £99 would. -/
theorem settle_forces_ticket_number_witness :
    confirm_payment ⟨true, true⟩ cT e42 (some 10) 5 =
      confirm_payment ⟨true, true⟩ cT e42 (some 99) 5 ∧
    (confirm_payment ⟨true, true⟩ cT e42 (some 10) 5).calls.head? =
      some (GatewayCall.capture "pi_9" (e42.number * 100)) ∧
    (Gateway.captureOk ⟨true, true⟩ = true →
      (confirm_payment ⟨true, true⟩ cT e42 (some 10) 5).result =
        ConfirmResult.confirmed (e42.number : Int) ((5000 / 100 : Nat) : Int)
          (max 0 (((5000 / 100 : Nat) : Int) - (e42.number : Int)))) :=
  settle_forces_ticket_number ⟨true, true⟩ cT e42 (some 10) (some 99) 5
    "pi_9" 5000 (by decide) (by decide) (by decide) (by decide) (by decide)
    (by decide) (by decide)

theorem confirm_payment_invalid_eval
    (g : Gateway) (c : Charity) (e : Entry) (r : Option Int) (now : Nat)
    (piid : String) (H : Nat)
    (hopt : c.optional_donation_enabled = true)
    (hacct : pyStartsWith "acct_"
      (if e.stripe_account_id ≠ "" then e.stripe_account_id
       else c.stripe_account_id) = true)
    (hpaid : e.paid = false)
    (hpi : e.payment_intent_id = some piid)
    (hH : e.hold_amount_pence = some H)
    (hHpos : 0 < H)
    (hbad : form_amount_gbp r < 0 ∨ (H : Int) < form_amount_gbp r * 100) :
    confirm_payment g c e r now = ⟨ConfirmResult.exceedsHold, e, []⟩ ∨
    confirm_payment g c e r now = ⟨ConfirmResult.invalidAmount, e, []⟩ := by
  unfold confirm_payment
  simp only [hacct, hpaid, hpi, hopt, hH, Option.getD_some,
    heldOrDefault_pos hHpos, not_true_eq_false, false_and, if_false,
    ite_false, ite_true, Bool.not_eq_true, not_false_eq_true, Bool.false_eq_true]
  by_cases hex : ((H / 100 : Nat) : Int) < form_amount_gbp r
  · left
    rw [if_pos hex]
  · right
    rw [if_neg hex, if_neg (show ¬ (H ≤ 0) by omega), if_pos (by omega)]

/-- C4: a settlement whose donor-supplied amount is negative or exceeds the
entry's authorised hold is rejected as an invalid capture amount before any
gateway call is made, leaving the entry (still unpaid) and its hold intact. -/
theorem settle_rejects_invalid_amount
    (g : Gateway) (c : Charity) (e : Entry) (r : Option Int) (now : Nat)
    (piid : String) (H : Nat)
    (hopt : c.optional_donation_enabled = true)
    (hacct : pyStartsWith "acct_"
      (if e.stripe_account_id ≠ "" then e.stripe_account_id
       else c.stripe_account_id) = true)
    (hpaid : e.paid = false)
    (hpi : e.payment_intent_id = some piid)
    (hH : e.hold_amount_pence = some H)
    (hHpos : 0 < H)
    (hbad : form_amount_gbp r < 0 ∨ (H : Int) < form_amount_gbp r * 100) :
    ((confirm_payment g c e r now).result = ConfirmResult.exceedsHold ∨
      (confirm_payment g c e r now).result = ConfirmResult.invalidAmount) ∧
    (confirm_payment g c e r now).calls = [] ∧
    (confirm_payment g c e r now).entry = e := by
  rcases confirm_payment_invalid_eval g c e r now piid H hopt hacct hpaid hpi
      hH hHpos hbad with heq | heq <;>
    (rw [heq]; exact ⟨by simp, rfl, rfl⟩)

/-- Witness for C4, the spec's Scenario D: requested £60 against a £50 hold
is rejected with no gateway call and no entry change. -/
theorem settle_rejects_invalid_amount_witness :
    ((confirm_payment ⟨true, true⟩ cTopt e42 (some 60) 5).result =
        ConfirmResult.exceedsHold ∨
      (confirm_payment ⟨true, true⟩ cTopt e42 (some 60) 5).result =
        ConfirmResult.invalidAmount) ∧
    (confirm_payment ⟨true, true⟩ cTopt e42 (some 60) 5).calls = [] ∧
    (confirm_payment ⟨true, true⟩ cTopt e42 (some 60) 5).entry = e42 :=
  settle_rejects_invalid_amount ⟨true, true⟩ cTopt e42 (some 60) 5 "pi_9" 5000
    (by decide) (by decide) (by decide) (by decide) (by decide) (by decide)
    (by decide)

/-- C5: with partial donation enabled, settling at exactly £0 takes the
cancel/release path: the only gateway call is a cancel of the hold (nothing
is captured), and the entry ends paid with a captured total of zero. -/
theorem settle_zero_takes_cancel_path
    (g : Gateway) (c : Charity) (e : Entry) (now : Nat)
    (piid : String) (H : Nat)
    (hopt : c.optional_donation_enabled = true)
    (hacct : pyStartsWith "acct_"
      (if e.stripe_account_id ≠ "" then e.stripe_account_id
       else c.stripe_account_id) = true)
    (hpaid : e.paid = false)
    (hpi : e.payment_intent_id = some piid)
    (hH : e.hold_amount_pence = some H)
    (hHpos : 0 < H)
    (hcancel : g.cancelOk = true) :
    confirm_payment g c e (some 0) now =
      ⟨ConfirmResult.canceledOk, { e with paid := true, paid_at := some now },
       [GatewayCall.cancel piid]⟩ ∧
    capturedTotal (confirm_payment g c e (some 0) now).calls = 0 ∧
    (confirm_payment g c e (some 0) now).entry.paid = true := by
  have heval : confirm_payment g c e (some 0) now =
      ⟨ConfirmResult.canceledOk, { e with paid := true, paid_at := some now },
       [GatewayCall.cancel piid]⟩ := by
    unfold confirm_payment
    simp only [hacct, hpaid, hpi, hopt, hH, Option.getD_some,
      heldOrDefault_pos hHpos, not_true_eq_false, false_and, if_false,
      ite_false, ite_true, Bool.not_eq_true, not_false_eq_true,
      Bool.false_eq_true, form_amount_gbp]
    rw [if_neg (by omega), if_neg (show ¬ (H ≤ 0) by omega),
      if_neg (by omega), if_pos (by norm_num), if_pos hcancel]
  refine ⟨heval, ?_, ?_⟩
  · rw [heval]
    rfl
  · rw [heval]

/-- Witness for C5, the spec's Scenario C: settling `e42` (hold £50) at £0
cancels the hold, captures nothing, and marks the entry paid. -/
theorem settle_zero_takes_cancel_path_witness :
    confirm_payment ⟨true, true⟩ cTopt e42 (some 0) 5 =
      ⟨ConfirmResult.canceledOk, { e42 with paid := true, paid_at := some 5 },
       [GatewayCall.cancel "pi_9"]⟩ ∧
    capturedTotal (confirm_payment ⟨true, true⟩ cTopt e42 (some 0) 5).calls = 0 ∧
    (confirm_payment ⟨true, true⟩ cTopt e42 (some 0) 5).entry.paid = true :=
  settle_zero_takes_cancel_path ⟨true, true⟩ cTopt e42 5 "pi_9" 5000
    (by decide) (by decide) (by decide) (by decide) (by decide) (by decide)
    (by decide)

/-- C6: settlement is idempotent: an entry already marked paid is
short-circuited — the handler reports the already-recorded payment, makes no
gateway call, changes nothing, and does so identically for any requested
amount; the payment-succeeded webhook likewise leaves already-paid entries
untouched. -/
theorem settle_idempotent_already_paid
    (g : Gateway) (c : Charity) (e : Entry) (r r' : Option Int) (now now' : Nat)
    (entries : List Entry) (eid : Nat) (nw : Nat)
    (hacct : pyStartsWith "acct_"
      (if e.stripe_account_id ≠ "" then e.stripe_account_id
       else c.stripe_account_id) = true)
    (hpaid : e.paid = true)
    (hallpaid : ∀ x ∈ entries, x.paid = true) :
    confirm_payment g c e r now = ⟨ConfirmResult.alreadyPaid, e, []⟩ ∧
    confirm_payment g c e r now = confirm_payment g c e r' now' ∧
    stripe_webhook_succeeded entries (some eid) nw = entries := by
  have heval : ∀ s : Option Int, ∀ t : Nat,
      confirm_payment g c e s t = ⟨ConfirmResult.alreadyPaid, e, []⟩ := by
    intro s t
    unfold confirm_payment
    rw [if_neg (by rw [hacct]; simp), if_pos hpaid]
  refine ⟨heval r now, by rw [heval r now, heval r' now'], ?_⟩
  unfold stripe_webhook_succeeded
  dsimp only
  rw [List.map_congr_left (g := id) ?_, List.map_id]
  intro x hx
  rw [if_neg]
  · rfl
  · simp [hallpaid x hx]

/-- Witness for C6: a paid entry settles to the idempotent short-circuit for
two different requested amounts, and the webhook leaves it unchanged. -/
theorem settle_idempotent_already_paid_witness :
    confirm_payment ⟨true, true⟩ cT { e42 with paid := true } (some 10) 5 =
      ⟨ConfirmResult.alreadyPaid, { e42 with paid := true }, []⟩ ∧
    confirm_payment ⟨true, true⟩ cT { e42 with paid := true } (some 10) 5 =
      confirm_payment ⟨true, true⟩ cT { e42 with paid := true } (some 33) 6 ∧
    stripe_webhook_succeeded [{ e42 with paid := true }] (some 9) 7 =
      [{ e42 with paid := true }] :=
  settle_idempotent_already_paid ⟨true, true⟩ cT { e42 with paid := true }
    (some 10) (some 33) 5 6 [{ e42 with paid := true }] 9 7
    (by decide) (by decide) (by decide)

/-- A PaymentIntent whose status is the literal string "authorized" (not a
status the code accepts). -/
def piAuth : PaymentIntent :=
  { id := "pi_3", status := "authorized", amount := 250 }

/-- C7 counterexample: the statuses the code accepts are exactly Stripe's
`"requires_capture"` and `"succeeded"` (line 2803), not `"authorized"`: a
callback whose PaymentIntent status is `"requires_capture"` — which is
neither `"authorized"` nor `"succeeded"` — does not abort the flow, and an
Entry IS created, refuting the claim as stated. -/
theorem hold_verify_status_counterexample :
    piT.status ≠ "authorized" ∧ piT.status ≠ "succeeded" ∧
    (hold_success chooseHead envId (some "cs") (some piT) (some pT) 7
        ⟨cT, []⟩).1 = HoldResult.created (mkEntry 7 cT pT piT 1) :=
  ⟨by decide, by decide, by decide⟩

/-- C7 (amended): an Entry is created only when the retrieved PaymentIntent
exists and its gateway-reported status is exactly `"requires_capture"`
(Stripe's status for an authorized manual-capture hold) or `"succeeded"`; any
other reported status, or an absent PaymentIntent, aborts the flow back to
the campaign page with no Entry created and no state change. -/
theorem hold_verify_status
    (choose : List Nat → Nat) (env : Nat → List Entry → List Entry)
    (sid : Option String) (pi : Option PaymentIntent)
    (pending : Option Pending) (nextId : Nat) (st : CampaignState) :
    (∀ e st', hold_success choose env sid pi pending nextId st =
        (HoldResult.created e, st') →
      ∃ intent, pi = some intent ∧
        (intent.status = "requires_capture" ∨ intent.status = "succeeded")) ∧
    (∀ s intent, sid = some s → pi = some intent →
      intent.status ≠ "requires_capture" → intent.status ≠ "succeeded" →
      hold_success choose env sid pi pending nextId st =
        (HoldResult.badStatus, st)) ∧
    (∀ s, sid = some s → pi = none →
      hold_success choose env sid pi pending nextId st =
        (HoldResult.badStatus, st)) := by
  refine ⟨?_, ?_, ?_⟩
  · intro e st' h
    unfold hold_success at h
    cases sid with
    | none => exact absurd h (by simp)
    | some s =>
      cases pi with
      | none => exact absurd h (by simp)
      | some intent =>
        dsimp only at h
        split at h
        · next hstat => exact ⟨intent, rfl, hstat⟩
        · exact absurd h (by simp)
  · intro s intent hs hintent h₁ h₂
    subst hs
    subst hintent
    unfold hold_success
    dsimp only
    rw [if_neg]
    simp [h₁, h₂]
  · intro s hs hpi
    subst hs
    subst hpi
    rfl

/-- Witness for (the amended) C7: a PaymentIntent reporting `"authorized"`
aborts with no Entry created and the state unchanged. -/
theorem hold_verify_status_witness :
    hold_success chooseHead envId (some "cs") (some piAuth) (some pT) 7
        ⟨cT, []⟩ = (HoldResult.badStatus, ⟨cT, []⟩) :=
  (hold_verify_status chooseHead envId (some "cs") (some piAuth) (some pT) 7
    ⟨cT, []⟩).2.1 "cs" piAuth rfl rfl (by decide) (by decide)

/-- C8 counterexample: with capacity 1, a live campaign and an empty table, a
successful allocation takes the last number — the complement of free numbers
becomes empty — and yet the campaign status is still `"live"` when the
request finishes: the auto-flip to sold_out does not run on the
successful-allocation path (`refresh_campaign_status` is only called on the
failed-allocation path and on campaign-page views). -/
theorem sold_out_not_flipped_on_success :
    (hold_success chooseHead envId (some "cs") (some piOne) (some pOne) 3
        ⟨cOne, []⟩).1 = HoldResult.created (mkEntry 3 cOne pOne piOne 1) ∧
    available_numbers
      (hold_success chooseHead envId (some "cs") (some piOne) (some pOne) 3
        ⟨cOne, []⟩).2.charity
      (hold_success chooseHead envId (some "cs") (some piOne) (some pOne) 3
        ⟨cOne, []⟩).2.entries = [] ∧
    (hold_success chooseHead envId (some "cs") (some piOne) (some pOne) 3
        ⟨cOne, []⟩).2.charity.campaign_status = "live" :=
  ⟨by decide, by decide, by decide⟩

/-- C8 (amended): the flip to sold_out performed by
`refresh_campaign_status` is the only automatic status change (it either sets
`"sold_out"` or changes nothing, and does nothing while tickets remain); it
runs when the campaign page is rendered and after a failed allocation retry
loop, but not on a successful allocation, which leaves the status untouched.
An allocation attempt on a fully-allocated campaign reports exhaustion
(`soldOutEarly`) with the state — including the status — unchanged; the
status becomes `"sold_out"` at the next `refresh_campaign_status` call. -/
theorem sold_out_auto_flip
    (c : Charity) (entries : List Entry)
    (choose : List Nat → Nat) (env : Nat → List Entry → List Entry)
    (sid : Option String) (intent : PaymentIntent) (p : Pending)
    (nextId : Nat) (st : CampaignState) :
    ((refresh_campaign_status c entries).campaign_status = "sold_out" ∨
      refresh_campaign_status c entries = c) ∧
    (available_numbers c entries ≠ [] → refresh_campaign_status c entries = c) ∧
    (available_numbers c entries = [] →
      (refresh_campaign_status c entries).campaign_status = "sold_out") ∧
    (∀ s, sid = some s →
      (intent.status = "requires_capture" ∨ intent.status = "succeeded") →
      p.slug = st.charity.slug →
      available_numbers st.charity st.entries = [] →
      hold_success choose env sid (some intent) (some p) nextId st =
        (HoldResult.soldOutEarly, st)) ∧
    (∀ e st', hold_success choose env sid (some intent) (some p) nextId st =
        (HoldResult.created e, st') → st'.charity = st.charity) := by
  refine ⟨?_, ?_, ?_, ?_, ?_⟩
  · unfold refresh_campaign_status
    split
    · exact Or.inl rfl
    · exact Or.inr rfl
  · intro hne
    unfold refresh_campaign_status
    rw [if_neg]
    intro hcon
    exact hne (List.length_eq_zero.1 (Nat.le_zero.1 hcon.1))
  · intro hempty
    unfold refresh_campaign_status
    split
    · rfl
    · next hcon =>
      rw [not_and_or] at hcon
      rcases hcon with hlen | hstat
      · exact absurd (by simp [hempty]) hlen
      · rw [not_not] at hstat
        exact hstat
  · intro s hs hstat hslug hempty
    subst hs
    unfold hold_success
    dsimp only
    rw [if_pos hstat, if_pos hslug]
    unfold assign_number
    simp [hempty]
  · intro e st' h
    unfold hold_success at h
    cases sid with
    | none => exact absurd h (by simp)
    | some s =>
      dsimp only at h
      split at h
      · split at h
        · cases hassign : assign_number choose st.charity st.entries with
          | none => rw [hassign] at h; exact absurd h (by simp)
          | some n =>
            rw [hassign] at h
            dsimp only at h
            cases hloop : allocLoop choose env st.charity
                (mkEntry nextId st.charity p intent) 12 st.entries with
            | mk eOpt committed =>
              rw [hloop] at h
              cases eOpt with
              | none => exact absurd h (by simp)
              | some e₁ =>
                dsimp only at h
                have := congrArg Prod.snd h
                dsimp only at this
                rw [← this]
        · exact absurd h (by simp)
      · exact absurd h (by simp)

/-- Witness for (the amended) C8: on a fully-allocated capacity-1 campaign
the next allocation attempt reports exhaustion and leaves the live status
unchanged, and a subsequent status refresh flips it to sold_out. -/
theorem sold_out_auto_flip_witness :
    hold_success chooseHead envId (some "cs") (some piOne) (some pOne) 4
        ⟨cOne, [mkEntry 3 cOne pOne piOne 1]⟩ =
      (HoldResult.soldOutEarly, ⟨cOne, [mkEntry 3 cOne pOne piOne 1]⟩) ∧
    (refresh_campaign_status cOne [mkEntry 3 cOne pOne piOne 1]).campaign_status
      = "sold_out" :=
  ⟨(sold_out_auto_flip cOne [] chooseHead envId (some "cs") piOne pOne 4
      ⟨cOne, [mkEntry 3 cOne pOne piOne 1]⟩).2.2.2.1 "cs" rfl (by decide)
      (by decide) (by decide),
   (sold_out_auto_flip cOne [mkEntry 3 cOne pOne piOne 1] chooseHead envId
      (some "cs") piOne pOne 4 ⟨cOne, []⟩).2.2.1 (by decide)⟩

/-- C9: revealing the ticket number is one-time and session-scoped: after a
successful reveal, a second request for the same entry from the same donor
session is rejected as already revealed (409), and a request from any session
other than the one that created the entry (whose `reveal_entry_id` marks it)
is rejected as not authorised (403) with the session unchanged. -/
theorem reveal_one_time_session_scoped
    (sess : DonorSession) (entries : List Entry) (entry_id : Nat) :
    (∀ n v hv sess₁,
      api_reveal_number sess entries entry_id =
        (RevealResult.ok n v hv, sess₁) →
      (api_reveal_number sess₁ entries entry_id).1 =
        RevealResult.alreadyRevealed) ∧
    (sess.reveal_entry_id ≠ some entry_id →
      api_reveal_number sess entries entry_id =
        (RevealResult.notAuthorised, sess)) := by
  constructor
  · intro n v hv sess₁ hcall
    unfold api_reveal_number at hcall
    split at hcall
    · exact absurd hcall (by simp)
    · next hauth =>
      split at hcall
      · exact absurd hcall (by simp)
      · cases hfind : findEntry entries entry_id with
        | none => rw [hfind] at hcall; exact absurd hcall (by simp)
        | some e₀ =>
          rw [hfind] at hcall
          dsimp only at hcall
          have hs : sess₁ = { sess with revealed_entry_id := some entry_id } := by
            have := congrArg Prod.snd hcall
            dsimp only at this
            exact this.symm
          subst hs
          unfold api_reveal_number
          dsimp only
          rw [if_neg hauth, if_pos rfl]
  · intro hne
    unfold api_reveal_number
    rw [if_pos hne]

/-- Witness for C9: a second reveal of entry 9 in its own session returns
already-revealed, and a reveal from a session that did not create the entry
returns not-authorised. -/
theorem reveal_one_time_session_scoped_witness :
    (api_reveal_number ⟨some 9, some 9⟩ [e42] 9).1 =
      RevealResult.alreadyRevealed ∧
    api_reveal_number ⟨some 8, none⟩ [e42] 9 =
      (RevealResult.notAuthorised, ⟨some 8, none⟩) :=
  ⟨(reveal_one_time_session_scoped ⟨some 9, none⟩ [e42] 9).1 42 42 50
      ⟨some 9, some 9⟩ (by decide),
   (reveal_one_time_session_scoped ⟨some 8, none⟩ [e42] 9).2 (by decide)⟩

/-- A capacity-10 variant of `cT` and an entry holding number 5, for the
partner-edit runs. -/
def cBig : Charity := { cT with max_number := 10 }

/-- An entry of `cBig` whose assigned number is 5. -/
def eC10 : Entry := { e42 with id := 11, number := 5 }

/-- C10 counterexample: an existing Entry's number CAN be changed after
creation: the partner entry-edit handler (`partner_edit_entry`, lines
4641-4648) accepts a new in-range number and commits it — here an entry
created with number 5 ends up with number 7 — refuting "no operation of the
program changes the number of an existing Entry". -/
theorem entry_number_mutable_counterexample :
    eC10.number = 5 ∧
    (partner_edit_entry cBig [eC10] 11 "n" "m" "p"
        (NumberField.val 7)).1.map Entry.number = [7] :=
  ⟨by decide, by decide⟩

set_option maxHeartbeats 1000000 in
theorem confirm_payment_preserves_number
    (g : Gateway) (c : Charity) (e : Entry) (r : Option Int) (now : Nat) :
    (confirm_payment g c e r now).entry.number = e.number := by
  unfold confirm_payment
  dsimp only
  repeat' split
  all_goals rfl

theorem allocLoop_mem (choose : List Nat → Nat)
    (env : Nat → List Entry → List Entry) (c : Charity) (mk : Nat → Entry)
    (henv : ∀ i s x, x ∈ s → x ∈ env i s) :
    ∀ fuel entries x, x ∈ entries →
      x ∈ (allocLoop choose env c mk fuel entries).2 := by
  intro fuel
  induction fuel with
  | zero => intro entries x hx; exact hx
  | succ fuel ih =>
    intro entries x hx
    unfold allocLoop
    cases hassign : assign_number choose c entries with
    | none => exact hx
    | some n =>
      dsimp only
      have hx₁ := henv fuel entries x hx
      cases hcommit : commitEntry (env fuel entries) (mk n) with
      | some committed =>
        dsimp only
        unfold commitEntry at hcommit
        split at hcommit
        · exact absurd hcommit (by simp)
        · cases hcommit
          exact List.mem_cons_of_mem _ hx₁
      | none =>
        dsimp only
        exact ih (env fuel entries) x hx₁

/-- C10 (amended): the ticket number is assigned at Entry creation and never
changed by the donor-facing flow — settlement leaves the entry's number
intact, the webhook preserves every entry's number, and `hold_success` (with
concurrent writers that only add rows) never removes or rewrites an existing
row.  The exception is the operator-facing partner entry-edit handler, which
may change an entry's number, and then only to an integer in
`[1, max_number]` (subject to the per-campaign unique constraint). -/
theorem entry_number_immutability
    (g : Gateway) (c : Charity) (e : Entry) (r : Option Int) (now : Nat)
    (entries entries₂ : List Entry) (meid : Option Nat) (nw : Nat)
    (choose : List Nat → Nat) (env : Nat → List Entry → List Entry)
    (sid : Option String) (pi : Option PaymentIntent)
    (pending : Option Pending) (nextId : Nat) (st : CampaignState)
    (c₂ : Charity) (eid : Nat) (nm em ph : String) (raw : NumberField)
    (henv : ∀ i s x, x ∈ s → x ∈ env i s)
    (hids : (entries₂.map Entry.id).Nodup) :
    (confirm_payment g c e r now).entry.number = e.number ∧
    (stripe_webhook_succeeded entries meid nw).map Entry.number =
      entries.map Entry.number ∧
    (∀ x ∈ st.entries,
      x ∈ (hold_success choose env sid pi pending nextId st).2.entries) ∧
    ((partner_edit_entry c₂ entries₂ eid nm em ph raw).1.map Entry.number =
        entries₂.map Entry.number ∨
      ∃ v, raw = NumberField.val v ∧ 1 ≤ v ∧ v ≤ (c₂.max_number : Int)) := by
  refine ⟨?_, ?_, ?_, ?_⟩
  · exact confirm_payment_preserves_number g c e r now
  · unfold stripe_webhook_succeeded
    cases meid with
    | none => rfl
    | some eid₁ =>
      dsimp only
      rw [List.map_map]
      refine List.map_congr_left ?_
      intro x hx
      dsimp only [Function.comp]
      split
      · rfl
      · rfl
  · intro x hx
    unfold hold_success
    cases sid with
    | none => exact hx
    | some s =>
      cases pi with
      | none => exact hx
      | some intent =>
        dsimp only
        split
        · cases pending with
          | none => exact hx
          | some p =>
            dsimp only
            split
            · cases hassign : assign_number choose st.charity st.entries with
              | none => simp only [hassign]; exact hx
              | some n =>
                simp only [hassign]
                cases hloop : allocLoop choose env st.charity
                    (mkEntry nextId st.charity p intent) 12 st.entries with
                | mk eOpt committed =>
                  have hmem := allocLoop_mem choose env st.charity
                    (mkEntry nextId st.charity p intent) henv 12 st.entries x hx
                  rw [hloop] at hmem
                  cases eOpt with
                  | none => simpa [refreshState] using hmem
                  | some e₁ => simpa using hmem
            · exact hx
        · exact hx
  · unfold partner_edit_entry
    cases hfind : findEntry entries₂ eid with
    | none => exact Or.inl rfl
    | some e₀ =>
      dsimp only
      have he₀ : e₀ ∈ entries₂ := List.mem_of_find?_eq_some hfind
      split
      · exact Or.inl rfl
      · next hcid =>
        cases raw with
        | empty =>
          dsimp only
          split
          · exact Or.inl rfl
          · refine Or.inl ?_
            unfold replaceById
            rw [List.map_map]
            refine List.map_congr_left ?_
            intro x hx
            dsimp only [Function.comp]
            split
            · next hid =>
              have hxe : x = e₀ :=
                List.inj_on_of_nodup_map hids hx he₀ hid
              rw [hxe]
            · rfl
        | invalid => exact Or.inl rfl
        | val v =>
          dsimp only
          by_cases hrange : v < 1 ∨ (c₂.max_number : Int) < v
          · rw [if_pos hrange]
            exact Or.inl rfl
          · rw [if_neg hrange]
            dsimp only
            split
            · exact Or.inl rfl
            · exact Or.inr ⟨v, rfl, by omega, by omega⟩

/-- Witness for (the amended) C10: on concrete inputs, settlement and the
webhook keep number 42, a hold_success run keeps the pre-existing row, and a
partner edit of `eC10` changes its number only to the in-range value 7. -/
theorem entry_number_immutability_witness :
    (confirm_payment ⟨true, true⟩ cT e42 (some 10) 5).entry.number =
      e42.number ∧
    (stripe_webhook_succeeded [e42] (some 9) 7).map Entry.number =
      [e42].map Entry.number ∧
    (∀ x ∈ CampaignState.entries ⟨cT, [e42]⟩,
      x ∈ (hold_success chooseHead envId (some "cs") (some piT) (some pT) 7
        ⟨cT, [e42]⟩).2.entries) ∧
    ((partner_edit_entry cBig [eC10] 11 "n" "m" "p"
        (NumberField.val 7)).1.map Entry.number = [eC10].map Entry.number ∨
      ∃ v, NumberField.val 7 = NumberField.val v ∧ 1 ≤ v ∧
        v ≤ (cBig.max_number : Int)) :=
  entry_number_immutability ⟨true, true⟩ cT e42 (some 10) 5 [e42] [eC10]
    (some 9) 7 chooseHead envId (some "cs") (some piT) (some pT) 7
    ⟨cT, [e42]⟩ cBig 11 "n" "m" "p" (NumberField.val 7)
    (fun _ _ _ hx => hx) (by decide)

end Raffle
